import Mathlib

/-!
# File-content condition of the scene switcher

A shallow embedding of `src/src/macro-core/macro-condition-file.cpp` (with the
base-class persistence of `src/src/macro-segment.cpp`): the condition's fields
become a record, every member function that mutates the condition returns the
new record next to its result, and the library calls it makes (string hash,
regular expressions, HTTP transport, file access) are the fields of an explicit
record of collaborators.
-/

namespace SceneSwitcher

/-! ## Data model -/

/-- Modelled from the spec: the regex configuration type (its header is not among
the sources). The spec names a regex-enabled flag; the remaining settings are kept
as one number that only the regular-expression library interprets. -/
structure RegexConfig where
  enable : Bool
  options : Nat
deriving DecidableEq, Repr

/-- The accessor `_regex.Enabled()`. -/
def RegexConfig.Enabled (r : RegexConfig) : Bool := r.enable

/-- The enumeration `MacroConditionFile::FileType`, an `enum class` over `int`: a
value of the type is any `int`, whether it names an enumerator or not. -/
structure FileType where
  raw : Int
  inRange : -2147483648 ≤ raw ∧ raw < 2147483648
deriving DecidableEq, Repr

/-- The enumerator `FileType::LOCAL`, index 0 of the editor's combo box. -/
def FileType.LOCAL : FileType := ⟨0, by decide⟩

/-- The enumerator `FileType::REMOTE`, index 1 of the editor's combo box. -/
def FileType.REMOTE : FileType := ⟨1, by decide⟩

/-- A `QDateTime`: `none` is the null date-time of a default-constructed value,
`some t` a point in time. -/
abbrev QDateTime := Option Int

/-- The fields of a `MacroConditionFile` object, the inherited `_collapsed` of
`MacroSegment` included. `lastMod` and `lastHash` are the runtime cache. The two
`std::string` fields are only ever assigned from a C string (lines 126-127, and lines
247 and 259, see `cString`), so `c_str()` gives back the whole field. -/
structure MacroConditionFile where
  collapsed : Bool
  file : String
  text : String
  fileType : FileType
  regex : RegexConfig
  useTime : Bool
  onlyMatchIfChanged : Bool
  lastMod : QDateTime
  lastHash : Nat
deriving DecidableEq, Repr

/-- The library operations `MatchFileContent` calls.
* `strHash d` is `strHash(filedata.toUtf8().constData())`, the `std::hash` of the
  content's UTF-8 text;
* `regexIsValid r p` is `r.GetRegularExpression(p).isValid()`;
* `regexHasMatch r p d` is `r.GetRegularExpression(p).match(d).hasMatch()`. -/
structure Lib where
  strHash : String → Nat
  regexIsValid : RegexConfig → String → Bool
  regexHasMatch : RegexConfig → String → String → Bool

/-! ## Line endings -/

/-- Replace every CRLF pair by LF, scanning left to right. -/
def normalizeLineEndings : List Char → List Char
  | [] => []
  | [c] => [c]
  | c :: d :: rest =>
    if c = '\r' ∧ d = '\n' then '\n' :: normalizeLineEndings rest
    else c :: normalizeLineEndings (d :: rest)

/-- Modelled from the spec: `compareIgnoringLineEnding` is declared in `utility.hpp`,
which is not among the sources. The spec: "compare configured match text against
content, ignoring line-ending style differences (CRLF vs LF treated as equal), exact
otherwise". -/
def compareIgnoringLineEnding (s1 s2 : String) : Bool :=
  decide (normalizeLineEndings s1.data = normalizeLineEndings s2.data)

/-! ## Matching -/

/-- Lines 53-63 of `MatchFileContent`: the regex branch and the plain comparison.
This part reads the condition and does not write it. -/
def matchConfigured (L : Lib) (c : MacroConditionFile) (filedata : String) : Bool :=
  if c.regex.Enabled then
    if !L.regexIsValid c.regex c.text then
      false
    else
      L.regexHasMatch c.regex c.text filedata
  else
    compareIgnoringLineEnding c.text filedata

/-- The member function `MacroConditionFile::MatchFileContent`: the result and the
condition after the call. -/
def MatchFileContent (L : Lib) (c : MacroConditionFile) (filedata : String) :
    Bool × MacroConditionFile :=
  if c.onlyMatchIfChanged then
    let newHash := L.strHash filedata
    if newHash = c.lastHash then
      (false, c)
    else
      let c1 := { c with lastHash := newHash }
      (matchConfigured L c1 filedata, c1)
  else
    (matchConfigured L c filedata, c)

/-! ## Remote and local sources -/

/-- The options `getRemoteData` sets on the shared curl handle before `Perform`:
`CURLOPT_URL` and `CURLOPT_TIMEOUT` (the write function and its buffer are the
fixed `WriteCallback` and `readBuffer`). -/
structure CurlRequest where
  url : String
  timeout : Int
deriving DecidableEq, Repr

/-- What the condition reads of a `QFile` that opened: the time stamp
`QFileInfo(file).lastModified()` and the text `QTextStream(&file).readAll()`. -/
structure QFileView where
  lastModified : QDateTime
  readAll : String
deriving DecidableEq, Repr

/-- The process-wide collaborators of one evaluation tick: `interval` is
`switcher->interval`, `perform r` the chunks that `switcher->curl.Perform()` hands
to the write callback for request `r` (no chunk at all when the transfer fails
before any body is received), `openFile p` the outcome of opening path `p`
(`none` when `file.open` fails). -/
structure World where
  interval : Int
  perform : CurlRequest → List String
  openFile : String → Option QFileView

/-- The callback `WriteCallback`: append the received chunk to the buffer. -/
def WriteCallback (userp : String) (contents : String) : String := userp ++ contents

/-- Lines 34-37 of `getRemoteData`: the local variable `timeout`
(integer division truncating towards zero, then 0 replaced by 1). -/
def computedTimeout (interval : Int) : Int :=
  let timeout := Int.tdiv interval 1000
  if timeout = 0 then 1 else timeout

/-- The request `getRemoteData` has configured when it calls `Perform`. Line 38
passes the literal `1` to `CURLOPT_TIMEOUT`; the variable of lines 34-37 is not
used. -/
def getRemoteDataRequest (_interval : Int) (url : String) : CurlRequest :=
  { url := url, timeout := 1 }

/-- The function `getRemoteData`: the buffer after the transfer. -/
def getRemoteData (w : World) (url : String) : String :=
  (w.perform (getRemoteDataRequest w.interval url)).foldl WriteCallback ""

/-- The member function `MacroConditionFile::CheckRemoteFileContent`. -/
def CheckRemoteFileContent (L : Lib) (w : World) (c : MacroConditionFile) :
    Bool × MacroConditionFile :=
  let data := getRemoteData w c.file
  MatchFileContent L c data

/-- The body of `CheckLocalFileContent` once the open has been attempted:
`none` is a failed `file.open`. -/
def checkOpenedFile (L : Lib) (c : MacroConditionFile) (f : Option QFileView) :
    Bool × MacroConditionFile :=
  match f with
  | none => (false, c)
  | some file =>
    if c.useTime then
      let newLastMod := file.lastModified
      if c.lastMod = newLastMod then
        (false, c)
      else
        MatchFileContent L { c with lastMod := newLastMod } file.readAll
    else
      MatchFileContent L c file.readAll

/-- The member function `MacroConditionFile::CheckLocalFileContent`. -/
def CheckLocalFileContent (L : Lib) (w : World) (c : MacroConditionFile) :
    Bool × MacroConditionFile :=
  checkOpenedFile L c (w.openFile c.file)

/-- The member function `MacroConditionFile::CheckCondition`. -/
def CheckCondition (L : Lib) (w : World) (c : MacroConditionFile) :
    Bool × MacroConditionFile :=
  if c.fileType = FileType.REMOTE then CheckRemoteFileContent L w c
  else CheckLocalFileContent L w c

/-! ## Persistence -/

/-- A value stored in an `obs_data_t` document. `obj` is a nested document; the only
one written here holds a regex configuration and is kept as the record it encodes. -/
inductive ObsValue where
  | str (s : String)
  | int (n : Int)
  | bool (b : Bool)
  | obj (r : RegexConfig)
deriving DecidableEq, Repr

/-- An `obs_data_t` document: the items that were set, by name. -/
abbrev ObsData := List (String × ObsValue)

/-- The item stored under `name`, if one was set. -/
def obs_data_get : ObsData → String → Option ObsValue
  | [], _ => none
  | (k, v) :: rest, name => if k = name then some v else obs_data_get rest name

/-- The document without the item `name`. -/
def obs_data_erase : ObsData → String → ObsData
  | [], _ => []
  | (k, v) :: rest, name =>
    if k = name then obs_data_erase rest name else (k, v) :: obs_data_erase rest name

/-- Store `v` under `name`, replacing an earlier item of that name. -/
def obs_data_set (obj : ObsData) (name : String) (v : ObsValue) : ObsData :=
  (name, v) :: obs_data_erase obj name

/-- The names of the items of a document. -/
def obs_data_names (obj : ObsData) : List String := obj.map Prod.fst

/-- The setter `obs_data_set_string`. -/
def obs_data_set_string (obj : ObsData) (name : String) (s : String) : ObsData :=
  obs_data_set obj name (ObsValue.str s)

/-- The setter `obs_data_set_int`. -/
def obs_data_set_int (obj : ObsData) (name : String) (n : Int) : ObsData :=
  obs_data_set obj name (ObsValue.int n)

/-- The setter `obs_data_set_bool`. -/
def obs_data_set_bool (obj : ObsData) (name : String) (b : Bool) : ObsData :=
  obs_data_set obj name (ObsValue.bool b)

/-- The getter `obs_data_get_string`: the empty string when no string is stored. -/
def obs_data_get_string (obj : ObsData) (name : String) : String :=
  match obs_data_get obj name with
  | some (ObsValue.str s) => s
  | _ => ""

/-- The getter `obs_data_get_int`: 0 when no integer is stored. -/
def obs_data_get_int (obj : ObsData) (name : String) : Int :=
  match obs_data_get obj name with
  | some (ObsValue.int n) => n
  | _ => 0

/-- The getter `obs_data_get_bool`: false when no boolean is stored. -/
def obs_data_get_bool (obj : ObsData) (name : String) : Bool :=
  match obs_data_get obj name with
  | some (ObsValue.bool b) => b
  | _ => false

/-- The test `obs_data_has_user_value`: an item of that name was set. -/
def obs_data_has_user_value (obj : ObsData) (name : String) : Bool :=
  (obs_data_get obj name).isSome

/-- The cast `static_cast<int>(_fileType)`. -/
def FileType.toInt (t : FileType) : Int := t.raw

/-- The narrowing of an integer to a 32-bit `int`: the value modulo 2^32 in the range
from -2^31 to 2^31 - 1. -/
def narrowToInt (n : Int) : Int := (n + 2147483648) % 4294967296 - 2147483648

/-- The cast `static_cast<FileType>(n)` of a `long long` (or an `int`): the value is
narrowed to `int` and kept as it is, whether it names an enumerator or not. -/
def FileType.ofInt (n : Int) : FileType :=
  ⟨narrowToInt n, by unfold narrowToInt; omega⟩

/-- Modelled from the spec: `RegexConfig::Save` is not among the sources. The spec
lists the regex configuration among the persisted configuration values; it is stored
as one nested document under the name `regexConfig`. -/
def RegexConfig.Save (r : RegexConfig) (obj : ObsData) : ObsData :=
  obs_data_set obj "regexConfig" (ObsValue.obj r)

/-- Modelled from the spec: `RegexConfig::Load` is not among the sources. It restores
what `RegexConfig.Save` stored, and the default configuration when nothing was. -/
def RegexConfig.Load (_r : RegexConfig) (obj : ObsData) : RegexConfig :=
  match obs_data_get obj "regexConfig" with
  | some (ObsValue.obj r) => r
  | _ => { enable := false, options := 0 }

/-- Modelled from the spec: `RegexConfig::CreateBackwardsCompatibleRegex` is not among
the sources. The spec speaks of the "backward-compatible migration of a renamed flag":
the old flag `useRegex` becomes the enabled flag. -/
def RegexConfig.CreateBackwardsCompatibleRegex (r : RegexConfig) (enable : Bool) :
    RegexConfig :=
  { r with enable := enable }

/-- The member function `MacroSegment::Save` (its result is always true). -/
def MacroSegment.Save (collapsed : Bool) (obj : ObsData) : ObsData :=
  obs_data_set_bool obj "collapsed" collapsed

/-- The member function `MacroSegment::Load`: the new value of `_collapsed`. -/
def MacroSegment.Load (obj : ObsData) : Bool :=
  obs_data_get_bool obj "collapsed"

/-- Modelled from the spec: `MacroCondition::Save` is not among the sources. The spec
describes a condition as a segment extended with its own configuration, so the base
call made on line 107 is the segment's `Save`. -/
def MacroCondition.Save (collapsed : Bool) (obj : ObsData) : ObsData :=
  MacroSegment.Save collapsed obj

/-- Modelled from the spec: `MacroCondition::Load` is not among the sources; see
`MacroCondition.Save`. -/
def MacroCondition.Load (obj : ObsData) : Bool :=
  MacroSegment.Load obj

/-- The member function `MacroConditionFile::Save`: the document after the call (the
result is always true). -/
def MacroConditionFile.Save (c : MacroConditionFile) (obj : ObsData) : ObsData :=
  let obj := MacroCondition.Save c.collapsed obj
  let obj := c.regex.Save obj
  let obj := obs_data_set_string obj "file" c.file
  let obj := obs_data_set_string obj "text" c.text
  let obj := obs_data_set_int obj "fileType" c.fileType.toInt
  let obj := obs_data_set_bool obj "useTime" c.useTime
  obs_data_set_bool obj "onlyMatchIfChanged" c.onlyMatchIfChanged

/-- The member function `MacroConditionFile::Load`: the condition after the call (the
result is always true). -/
def MacroConditionFile.Load (c : MacroConditionFile) (obj : ObsData) : MacroConditionFile :=
  let c := { c with collapsed := MacroCondition.Load obj }
  let c := { c with regex := c.regex.Load obj }
  let c :=
    if obs_data_has_user_value obj "useRegex" then
      { c with regex := c.regex.CreateBackwardsCompatibleRegex (obs_data_get_bool obj "useRegex") }
    else c
  let c := { c with file := obs_data_get_string obj "file" }
  let c := { c with text := obs_data_get_string obj "text" }
  let c := { c with fileType := FileType.ofInt (obs_data_get_int obj "fileType") }
  let c := { c with useTime := obs_data_get_bool obj "useTime" }
  { c with onlyMatchIfChanged := obs_data_get_bool obj "onlyMatchIfChanged" }

/-- The names `MacroConditionFile.Save` writes. -/
def savedNames : List String :=
  ["onlyMatchIfChanged", "useTime", "fileType", "text", "file", "regexConfig", "collapsed"]

/-! ## Sample collaborators used by the concrete instances -/

/-- A string hash: the length of the text. -/
def lenHash (s : String) : Nat := s.length

/-- A library whose regular expressions are all invalid. -/
def libNoRegex : Lib :=
  { strHash := lenHash, regexIsValid := fun _ _ => false, regexHasMatch := fun _ _ _ => false }

/-- A library whose regular expressions are all valid and match every content. -/
def libAnyRegex : Lib :=
  { strHash := lenHash, regexIsValid := fun _ _ => true, regexHasMatch := fun _ _ _ => true }

/-- A local condition in exact mode watching for the text `READY`. -/
def sampleCond : MacroConditionFile :=
  { collapsed := false, file := "/tmp/state.txt", text := "READY", fileType := FileType.LOCAL,
    regex := { enable := false, options := 0 }, useTime := false, onlyMatchIfChanged := true,
    lastMod := none, lastHash := 0 }

/-- A remote condition in exact mode with an empty match text. -/
def emptyTextRemote : MacroConditionFile :=
  { collapsed := false, file := "http://host/state", text := "", fileType := FileType.REMOTE,
    regex := { enable := false, options := 0 }, useTime := false, onlyMatchIfChanged := false,
    lastMod := none, lastHash := 0 }

/-- A remote condition in exact mode watching for the text `READY`. -/
def readyRemote : MacroConditionFile :=
  { emptyTextRemote with text := "READY" }

/-- A remote condition in regex mode with a pattern that matches any content. -/
def regexRemote : MacroConditionFile :=
  { emptyTextRemote with text := ".*", regex := { enable := true, options := 0 } }

/-- A condition in regex mode. -/
def regexCond : MacroConditionFile :=
  { sampleCond with text := "(", regex := { enable := true, options := 0 } }

/-- A remote condition with change detection that has seen `READY` (hash 5). -/
def seenRemote : MacroConditionFile :=
  { readyRemote with onlyMatchIfChanged := true, lastHash := 5 }

/-- A world whose every transfer delivers `READY` in two chunks. -/
def readyWorld : World :=
  { interval := 500, perform := fun _ => ["REA", "DY"], openFile := fun _ => none }

/-- A world whose every transfer fails before a body arrives and in which no file
opens. -/
def failingWorld : World :=
  { interval := 500, perform := fun _ => [], openFile := fun _ => none }

/-- A local condition that checks the modification time and last saw time stamp 7. -/
def timedCond : MacroConditionFile :=
  { sampleCond with useTime := true, lastMod := some 7, lastHash := 5 }

/-- A world whose every file opens, has time stamp 7 and holds `READY`. -/
def worldAt7 : World :=
  { interval := 300, perform := fun _ => [],
    openFile := fun _ => some { lastModified := some 7, readAll := "READY" } }

/-- A world whose every file opens, has time stamp 9 and holds `READY!`. -/
def worldAt9 : World :=
  { interval := 300, perform := fun _ => [],
    openFile := fun _ => some { lastModified := some 9, readAll := "READY!" } }

/-- A condition in exact mode, without change detection, watching for `a`, LF, `b`. -/
def twoLineCond : MacroConditionFile :=
  { sampleCond with text := "a\nb", onlyMatchIfChanged := false }

/-! ## Editor setters -/

/-- The widgets an editor setter touches. -/
inductive Widget where
  | filePathButton
  | checkModificationDate
deriving DecidableEq, Repr

/-- The fields of the condition an editor setter assigns. -/
inductive Field where
  | fileType
  | file
  | text
  | regex
  | useTime
  | onlyMatchIfChanged
deriving DecidableEq, Repr

/-- What a setter does that another party can observe, in program order: taking and
releasing `switcher->m`, assigning a field of the condition, calling into the user
interface. -/
inductive Event where
  | lock
  | unlock
  | write (f : Field)
  | setDisabled (w : Widget) (b : Bool)
  | emitHeaderInfoChanged (text : String)
  | adjustSize
  | updateGeometry
deriving DecidableEq, Repr

/-- The state of a `MacroConditionFileEdit` the setters read: `_loading` and the
condition `_entryData` points to (`none` for a null pointer). -/
structure MacroConditionFileEdit where
  loading : Bool
  entryData : Option MacroConditionFile
deriving DecidableEq, Repr

/-- The text a `std::string` receives when it is assigned from
`text.toUtf8().constData()`: the characters before the first NUL. -/
def cString (text : String) : String :=
  String.mk (text.data.takeWhile (fun ch => !(ch == Char.ofNat 0)))

/-- The member function `MacroConditionFile::GetShortDesc`. -/
def MacroConditionFile.GetShortDesc (c : MacroConditionFile) : String := c.file

/-- The slot `FileTypeChanged`. The `std::lock_guard` of line 236 takes the lock where
it is declared and releases it when the function body ends. -/
def FileTypeChanged (e : MacroConditionFileEdit) (index : Int) :
    List Event × MacroConditionFileEdit :=
  match e.entryData with
  | none => ([], e)
  | some c =>
    if e.loading then ([], e)
    else
      let type := FileType.ofInt index
      let ui :=
        if type = FileType.LOCAL then
          [Event.setDisabled Widget.filePathButton false,
           Event.setDisabled Widget.checkModificationDate false]
        else
          [Event.setDisabled Widget.filePathButton true,
           Event.setDisabled Widget.checkModificationDate true]
      (ui ++ [Event.lock, Event.write Field.fileType, Event.unlock],
       { e with entryData := some { c with fileType := type } })

/-- The slot `PathChanged`. -/
def PathChanged (e : MacroConditionFileEdit) (text : String) :
    List Event × MacroConditionFileEdit :=
  match e.entryData with
  | none => ([], e)
  | some c =>
    if e.loading then ([], e)
    else
      let c1 := { c with file := cString text }
      ([Event.lock, Event.write Field.file,
        Event.emitHeaderInfoChanged c1.GetShortDesc, Event.unlock],
       { e with entryData := some c1 })

/-- The slot `MatchTextChanged`; `plainText` is `_matchText->toPlainText()`. -/
def MatchTextChanged (e : MacroConditionFileEdit) (plainText : String) :
    List Event × MacroConditionFileEdit :=
  match e.entryData with
  | none => ([], e)
  | some c =>
    if e.loading then ([], e)
    else
      ([Event.lock, Event.write Field.text, Event.adjustSize, Event.updateGeometry,
        Event.unlock],
       { e with entryData := some { c with text := cString plainText } })

/-- The slot `RegexChanged`. -/
def RegexChanged (e : MacroConditionFileEdit) (conf : RegexConfig) :
    List Event × MacroConditionFileEdit :=
  match e.entryData with
  | none => ([], e)
  | some c =>
    if e.loading then ([], e)
    else
      ([Event.lock, Event.write Field.regex, Event.adjustSize, Event.updateGeometry,
        Event.unlock],
       { e with entryData := some { c with regex := conf } })

/-- The slot `CheckModificationDateChanged`; the `int` state is converted to `bool`. -/
def CheckModificationDateChanged (e : MacroConditionFileEdit) (state : Int) :
    List Event × MacroConditionFileEdit :=
  match e.entryData with
  | none => ([], e)
  | some c =>
    if e.loading then ([], e)
    else
      ([Event.lock, Event.write Field.useTime, Event.unlock],
       { e with entryData := some { c with useTime := decide (state ≠ 0) } })

/-- The slot `OnlyMatchIfChangedChanged`; the `int` state is converted to `bool`. -/
def OnlyMatchIfChangedChanged (e : MacroConditionFileEdit) (state : Int) :
    List Event × MacroConditionFileEdit :=
  match e.entryData with
  | none => ([], e)
  | some c =>
    if e.loading then ([], e)
    else
      ([Event.lock, Event.write Field.onlyMatchIfChanged, Event.unlock],
       { e with entryData := some { c with onlyMatchIfChanged := decide (state ≠ 0) } })

/-- A call of one of the six setters with its argument. -/
inductive SetterCall where
  | fileTypeChanged (index : Int)
  | pathChanged (text : String)
  | matchTextChanged (plainText : String)
  | regexChanged (conf : RegexConfig)
  | checkModificationDateChanged (state : Int)
  | onlyMatchIfChangedChanged (state : Int)
deriving DecidableEq, Repr

/-- Run a setter call on an editor. -/
def SetterCall.run (e : MacroConditionFileEdit) : SetterCall → List Event × MacroConditionFileEdit
  | SetterCall.fileTypeChanged index => FileTypeChanged e index
  | SetterCall.pathChanged text => PathChanged e text
  | SetterCall.matchTextChanged plainText => MatchTextChanged e plainText
  | SetterCall.regexChanged conf => RegexChanged e conf
  | SetterCall.checkModificationDateChanged state => CheckModificationDateChanged e state
  | SetterCall.onlyMatchIfChangedChanged state => OnlyMatchIfChangedChanged e state

/-- The setters whose body goes on after the assignment: `PathChanged` (emits
`HeaderInfoChanged`), `MatchTextChanged` and `RegexChanged` (call `adjustSize` and
`updateGeometry`). -/
def SetterCall.continuesAfterWrite : SetterCall → Bool
  | SetterCall.pathChanged _ => true
  | SetterCall.matchTextChanged _ => true
  | SetterCall.regexChanged _ => true
  | _ => false

/-- A call into the user interface: a widget call or a signal emission. -/
def Event.isUiCallback : Event → Bool
  | Event.setDisabled _ _ => true
  | Event.emitHeaderInfoChanged _ => true
  | Event.adjustSize => true
  | Event.updateGeometry => true
  | _ => false

/-- Whether the lock is held after the events, given whether it was held before. -/
def lockHeldAfter : Bool → List Event → Bool
  | held, [] => held
  | _, Event.lock :: rest => lockHeldAfter true rest
  | _, Event.unlock :: rest => lockHeldAfter false rest
  | held, _ :: rest => lockHeldAfter held rest

/-- Whether some user-interface call happens while the lock is held. -/
def uiCallbackUnderLock : Bool → List Event → Bool
  | _, [] => false
  | _, Event.lock :: rest => uiCallbackUnderLock true rest
  | _, Event.unlock :: rest => uiCallbackUnderLock false rest
  | held, ev :: rest => (held && ev.isUiCallback) || uiCallbackUnderLock held rest

/-- Whether every assignment to the condition happens while the lock is held. -/
def writesUnderLock : Bool → List Event → Bool
  | _, [] => true
  | _, Event.lock :: rest => writesUnderLock true rest
  | _, Event.unlock :: rest => writesUnderLock false rest
  | held, Event.write _ :: rest => held && writesUnderLock held rest
  | held, _ :: rest => writesUnderLock held rest

/-- Whether every assignment is directly followed by the release of the lock. -/
def unlockRightAfterWrite : List Event → Bool
  | [] => true
  | Event.write _ :: Event.unlock :: rest => unlockRightAfterWrite rest
  | Event.write _ :: _ => false
  | _ :: rest => unlockRightAfterWrite rest

/-- An editor bound to `sampleCond`, past its construction. -/
def sampleEdit : MacroConditionFileEdit :=
  { loading := false, entryData := some sampleCond }

/-- A saved document of an older version: it carries the old flag `useRegex` and an
item this condition does not write. -/
def oldDoc : ObsData :=
  [("useRegex", ObsValue.bool true), ("id", ObsValue.str "file")]

/-- A local condition in exact mode, without change detection, watching for `READY`. -/
def readyCond : MacroConditionFile :=
  { sampleCond with onlyMatchIfChanged := false }

/-- The condition `readyCond` with another path, another file type and another
runtime cache. -/
def readyCondElsewhere : MacroConditionFile :=
  { readyCond with
    file := "http://host/state", fileType := FileType.REMOTE, lastMod := some 3, lastHash := 5 }

/-! ## Theorems -/

/-- Normalising line endings yields the empty text only from the empty text. -/
theorem normalizeLineEndings_eq_nil (l : List Char) :
    normalizeLineEndings l = [] ↔ l = [] := by
  match l with
  | [] => simp [normalizeLineEndings]
  | [c] => simp [normalizeLineEndings]
  | c :: d :: rest =>
    simp only [normalizeLineEndings]
    split <;> simp

/-- A text that holds no carriage return is its own normal form. -/
theorem normalizeLineEndings_of_no_cr (l : List Char) (h : '\r' ∉ l) :
    normalizeLineEndings l = l := by
  induction l with
  | nil => rfl
  | cons c t ih =>
    have hc : c ≠ '\r' := fun e => h (by simp [e])
    have ht : '\r' ∉ t := fun e => h (by simp [e])
    cases t with
    | nil => rfl
    | cons d rest =>
      simp only [normalizeLineEndings]
      rw [if_neg (fun hh => hc hh.1), ih ht]

/-- The call `MatchFileContent` writes no field but `lastHash`. -/
theorem matchFileContent_frame (L : Lib) (c : MacroConditionFile) (d : String) :
    (MatchFileContent L c d).2 = { c with lastHash := (MatchFileContent L c d).2.lastHash } := by
  cases c with
  | mk col file text ft rx ut omc lm lh =>
    unfold MatchFileContent
    cases omc
    · simp
    · by_cases hh : L.strHash d = lh <;> simp [hh]


/-- Casting a file type to `int` and back gives the file type again. -/
theorem fileType_ofInt_toInt (t : FileType) : FileType.ofInt t.toInt = t := by
  obtain ⟨raw, h⟩ := t
  simp only [FileType.ofInt, FileType.toInt, narrowToInt, FileType.mk.injEq]
  omega

/-- Reading a document from which `k` was erased. -/
theorem obs_data_get_erase (d : ObsData) (k n : String) :
    obs_data_get (obs_data_erase d k) n = if k = n then none else obs_data_get d n := by
  induction d with
  | nil => simp [obs_data_erase, obs_data_get]
  | cons p rest ih =>
    obtain ⟨a, v⟩ := p
    by_cases hak : a = k
    · subst hak
      by_cases han : a = n
      · subst han
        simp [obs_data_erase, ih]
      · simp [obs_data_erase, obs_data_get, ih, han]
    · by_cases han : a = n
      · subst han
        have hka : ¬ k = a := fun e => hak e.symm
        simp [obs_data_erase, obs_data_get, hak, hka]
      · simp [obs_data_erase, obs_data_get, hak, han, ih]

/-- Reading a document in which `k` was set. -/
theorem obs_data_get_set (d : ObsData) (k n : String) (v : ObsValue) :
    obs_data_get (obs_data_set d k v) n = if k = n then some v else obs_data_get d n := by
  by_cases h : k = n
  · simp [obs_data_set, obs_data_get, h]
  · simp [obs_data_set, obs_data_get, h, obs_data_get_erase]

/-- The flag `collapsed` after `Load` is the one the base class reads. -/
theorem macroConditionFile_load_frame (t : MacroConditionFile) (obj : ObsData) :
    (MacroConditionFile.Load t obj).collapsed = MacroCondition.Load obj := by
  simp only [MacroConditionFile.Load]
  split <;> rfl

/-- The call `Load` writes neither `lastHash` nor `lastMod`. -/
theorem macroConditionFile_load_cache (t : MacroConditionFile) (obj : ObsData) :
    (MacroConditionFile.Load t obj).lastHash = t.lastHash ∧
    (MacroConditionFile.Load t obj).lastMod = t.lastMod := by
  simp only [MacroConditionFile.Load]
  split <;> exact ⟨rfl, rfl⟩

/-- C1: with `onlyMatchIfChanged` set, calling `MatchFileContent` twice in a row with
the same content makes the second call return false, whatever the text or regex
comparison would give. -/
theorem matchFileContent_twice_false (L : Lib) (c : MacroConditionFile) (d : String)
    (h : c.onlyMatchIfChanged = true) :
    (MatchFileContent L (MatchFileContent L c d).2 d).1 = false := by
  unfold MatchFileContent
  by_cases hh : L.strHash d = c.lastHash <;> simp [h, hh]

/-- C2: with `onlyMatchIfChanged` set, after `MatchFileContent` returns the stored
`lastHash` is the hash of the content, on every return path. -/
theorem matchFileContent_lastHash (L : Lib) (c : MacroConditionFile) (d : String)
    (h : c.onlyMatchIfChanged = true) :
    (MatchFileContent L c d).2.lastHash = L.strHash d := by
  unfold MatchFileContent
  by_cases hh : L.strHash d = c.lastHash <;> simp [h, hh]

/-- Witness for C1: the condition `sampleCond` matches `READY` on the first call and
by plain comparison, and not on the second call. -/
theorem matchFileContent_twice_false_witness :
    sampleCond.onlyMatchIfChanged = true ∧
    matchConfigured libNoRegex sampleCond "READY" = true ∧
    (MatchFileContent libNoRegex sampleCond "READY").1 = true ∧
    (MatchFileContent libNoRegex (MatchFileContent libNoRegex sampleCond "READY").2 "READY").1
      = false :=
  ⟨rfl, by decide, by decide, matchFileContent_twice_false libNoRegex sampleCond "READY" rfl⟩

/-- Witness for C2: after `sampleCond` has seen `READY` its stored hash is the hash of
`READY`, both when the hash was new and when it was already stored. -/
theorem matchFileContent_lastHash_witness :
    (MatchFileContent libNoRegex sampleCond "READY").2.lastHash = libNoRegex.strHash "READY" ∧
    (MatchFileContent libNoRegex timedCond "READY").2.lastHash = libNoRegex.strHash "READY" :=
  ⟨matchFileContent_lastHash libNoRegex sampleCond "READY" rfl,
   matchFileContent_lastHash libNoRegex timedCond "READY" rfl⟩

/-- C3 (failing input): at a poll interval of 5000 the claimed timeout
`max 1 (5000 / 1000)` is 5, and so is the variable `timeout` that lines 34-37 compute,
yet the value handed to the transport as `CURLOPT_TIMEOUT` is 1. -/
theorem getRemoteData_timeout_at_5000 :
    (getRemoteDataRequest 5000 "http://host/state").timeout = 1 ∧
    computedTimeout 5000 = 5 ∧
    max (1 : Int) (Int.tdiv 5000 1000) = 5 ∧
    (getRemoteDataRequest 5000 "http://host/state").timeout ≠ max 1 (Int.tdiv 5000 1000) := by
  refine ⟨rfl, by decide, by decide, by decide⟩

/-- C5 (failing input): on a tick whose transfer fails without delivering any body, a
remote condition in exact mode with an empty match text reports a match, and so does
one in regex mode whose pattern matches the empty content; the local path returns
false and leaves the condition alone when its file does not open. The failed tick also
overwrites the stored hash: a condition that had seen `READY` and would not match it
again matches the same `READY` on the tick after the failure. -/
theorem checkRemote_failed_fetch_empty_text_matches :
    failingWorld.perform (getRemoteDataRequest failingWorld.interval emptyTextRemote.file) = [] ∧
    emptyTextRemote.fileType = FileType.REMOTE ∧
    (CheckRemoteFileContent libNoRegex failingWorld emptyTextRemote).1 = true ∧
    (CheckCondition libNoRegex failingWorld emptyTextRemote).1 = true ∧
    (CheckCondition libAnyRegex failingWorld regexRemote).1 = true ∧
    CheckLocalFileContent libNoRegex failingWorld timedCond = (false, timedCond) ∧
    (CheckRemoteFileContent libNoRegex readyWorld seenRemote).1 = false ∧
    (CheckRemoteFileContent libNoRegex failingWorld seenRemote).2.lastHash = 0 ∧
    (CheckRemoteFileContent libNoRegex readyWorld
      (CheckRemoteFileContent libNoRegex failingWorld seenRemote).2).1 = true := by
  decide

/-- The remote path does not tell a failed transfer from an empty body: when no body
arrives, `CheckRemoteFileContent` is `MatchFileContent` applied to the empty content
(a non-match in exact mode with a non-empty match text). -/
theorem checkRemote_no_body (L : Lib) (w : World) (c : MacroConditionFile)
    (hfail : w.perform (getRemoteDataRequest w.interval c.file) = []) :
    CheckRemoteFileContent L w c = MatchFileContent L c "" ∧
    (c.fileType = FileType.REMOTE → CheckCondition L w c = MatchFileContent L c "") ∧
    (c.regex.Enabled = false → c.text ≠ "" → (CheckRemoteFileContent L w c).1 = false) := by
  have h1 : CheckRemoteFileContent L w c = MatchFileContent L c "" := by
    simp [CheckRemoteFileContent, getRemoteData, hfail]
  refine ⟨h1, ?_, ?_⟩
  · intro hr
    simp [CheckCondition, hr, h1]
  · intro hre hne
    have hdata : c.text.data ≠ [] := fun e => hne (String.ext (by simpa using e))
    have hcmp : compareIgnoringLineEnding c.text "" = false := by
      simp only [compareIgnoringLineEnding, decide_eq_false_iff_not]
      intro e
      have e2 : normalizeLineEndings c.text.data = [] := by
        rw [e]; rfl
      exact hdata ((normalizeLineEndings_eq_nil _).1 e2)
    rw [h1]
    unfold MatchFileContent
    by_cases ho : c.onlyMatchIfChanged = true
    · by_cases hh : L.strHash "" = c.lastHash
      · simp [ho, hh]
      · simp only [ho, hh, if_true, if_false, matchConfigured]
        simp [hre, hcmp]
    · simp only [ho, if_false, matchConfigured]
      simp [hre, hcmp]

/-- C6: in regex mode with an invalid pattern `MatchFileContent` returns false for
every content and every prior state; the function is total, so the result is an
ordinary value. -/
theorem matchFileContent_invalid_regex (L : Lib) (c : MacroConditionFile) (d : String)
    (hre : c.regex.Enabled = true) (hinv : L.regexIsValid c.regex c.text = false) :
    (MatchFileContent L c d).1 = false := by
  unfold MatchFileContent
  by_cases ho : c.onlyMatchIfChanged = true
  · by_cases hh : L.strHash d = c.lastHash
    · simp [ho, hh]
    · simp only [ho, hh, if_true, if_false, matchConfigured]
      simp [hre, hinv]
  · simp only [ho, if_false, matchConfigured]
    simp [hre, hinv]

/-- Witness for C6: the regex condition with the pattern `(` under a library that
rejects it, on fresh content. -/
theorem matchFileContent_invalid_regex_witness :
    regexCond.regex.Enabled = true ∧
    libNoRegex.regexIsValid regexCond.regex regexCond.text = false ∧
    (MatchFileContent libNoRegex regexCond "anything").1 = false :=
  ⟨rfl, rfl, matchFileContent_invalid_regex libNoRegex regexCond "anything" rfl rfl⟩

/-- C7: for a local condition with `useTime` set whose file opens, an unchanged time
stamp makes `CheckLocalFileContent` return false with the condition untouched,
whatever the file holds; a changed time stamp is stored in `lastMod` and the result is
`MatchFileContent` of the file's content. -/
theorem checkLocal_useTime (L : Lib) (w : World) (c : MacroConditionFile) (f : QFileView)
    (hopen : w.openFile c.file = some f) (htime : c.useTime = true) :
    (c.lastMod = f.lastModified → CheckLocalFileContent L w c = (false, c)) ∧
    (c.lastMod ≠ f.lastModified →
      CheckLocalFileContent L w c
        = MatchFileContent L { c with lastMod := f.lastModified } f.readAll ∧
      (CheckLocalFileContent L w c).2.lastMod = f.lastModified) := by
  constructor
  · intro he
    simp [CheckLocalFileContent, checkOpenedFile, hopen, htime, he]
  · intro hne
    have h1 : CheckLocalFileContent L w c
        = MatchFileContent L { c with lastMod := f.lastModified } f.readAll := by
      simp [CheckLocalFileContent, checkOpenedFile, hopen, htime, hne]
    refine ⟨h1, ?_⟩
    rw [h1, matchFileContent_frame]

/-- Witness for C7: `timedCond` last saw time stamp 7; a file still at 7 gives false
and the same condition, a file at 9 stores 9 and matches its content. -/
theorem checkLocal_useTime_witness :
    CheckLocalFileContent libNoRegex worldAt7 timedCond = (false, timedCond) ∧
    CheckLocalFileContent libNoRegex worldAt9 timedCond
      = MatchFileContent libNoRegex { timedCond with lastMod := some 9 } "READY!" ∧
    (CheckLocalFileContent libNoRegex worldAt9 timedCond).2.lastMod = some 9 :=
  ⟨(checkLocal_useTime libNoRegex worldAt7 timedCond
      { lastModified := some 7, readAll := "READY" } rfl rfl).1 rfl,
   (checkLocal_useTime libNoRegex worldAt9 timedCond
      { lastModified := some 9, readAll := "READY!" } rfl rfl).2 (by decide)⟩

/-- C8: in exact mode with `onlyMatchIfChanged` unset, `MatchFileContent` leaves the
condition as it is and returns whether the match text and the content are equal once
every CRLF is replaced by LF; so `a`, CR, LF, `b` matches the text `a`, LF, `b`, and
texts without carriage returns match exactly when they are the same text. -/
theorem matchFileContent_exact_mode (L : Lib) (c : MacroConditionFile) (d : String)
    (ho : c.onlyMatchIfChanged = false) (hre : c.regex.Enabled = false) :
    MatchFileContent L c d
      = (decide (normalizeLineEndings c.text.data = normalizeLineEndings d.data), c) ∧
    (c.text = "a\nb" → (MatchFileContent L c "a\r\nb").1 = true) ∧
    ('\r' ∉ c.text.data → '\r' ∉ d.data →
      (MatchFileContent L c d).1 = decide (c.text = d)) := by
  have hmain : ∀ e : String, MatchFileContent L c e
      = (decide (normalizeLineEndings c.text.data = normalizeLineEndings e.data), c) := by
    intro e
    simp [MatchFileContent, ho, matchConfigured, hre, compareIgnoringLineEnding]
  refine ⟨hmain d, ?_, ?_⟩
  · intro ht
    rw [hmain, ht]
    show decide (normalizeLineEndings "a\nb".data = normalizeLineEndings "a\r\nb".data) = true
    decide
  · intro h1 h2
    rw [hmain, normalizeLineEndings_of_no_cr _ h1, normalizeLineEndings_of_no_cr _ h2]
    by_cases e : c.text = d
    · simp [e]
    · have : c.text.data ≠ d.data := fun h => e (String.ext h)
      simp [e, this]

/-- Witness for C8: the condition watching for `a`, LF, `b` matches `a`, CR, LF, `b`
and does not match `a`, LF, `c`. -/
theorem matchFileContent_exact_mode_witness :
    (MatchFileContent libNoRegex twoLineCond "a\r\nb").1 = true ∧
    (MatchFileContent libNoRegex twoLineCond "a\nc").1 = false :=
  ⟨(matchFileContent_exact_mode libNoRegex twoLineCond "a\r\nb" rfl rfl).2.1 rfl,
   by
    have h := (matchFileContent_exact_mode libNoRegex twoLineCond "a\nc" rfl rfl).2.2
      (by decide) (by decide)
    rw [h]; decide⟩

/-- C9: `Save` writes the configuration (`collapsed`, the regex configuration, `file`,
`text`, `fileType`, `useTime`, `onlyMatchIfChanged`) and nothing of `lastHash` or
`lastMod`; `Load` of a saved document restores `file`, `text`, `fileType`, `useTime`,
`onlyMatchIfChanged` and `collapsed`, and `Load` of any document keeps the target's
`lastHash` and `lastMod`. -/
theorem save_load_roundtrip (c t : MacroConditionFile) (d : ObsData) :
    (∀ (h : Nat) (m : QDateTime),
      MacroConditionFile.Save { c with lastHash := h, lastMod := m } d
        = MacroConditionFile.Save c d) ∧
    obs_data_names (MacroConditionFile.Save c []) = savedNames ∧
    (∀ k : String, k ∉ savedNames →
      obs_data_get (MacroConditionFile.Save c d) k = obs_data_get d k) ∧
    (MacroConditionFile.Load t (MacroConditionFile.Save c d)).file = c.file ∧
    (MacroConditionFile.Load t (MacroConditionFile.Save c d)).text = c.text ∧
    (MacroConditionFile.Load t (MacroConditionFile.Save c d)).fileType = c.fileType ∧
    (MacroConditionFile.Load t (MacroConditionFile.Save c d)).useTime = c.useTime ∧
    (MacroConditionFile.Load t (MacroConditionFile.Save c d)).onlyMatchIfChanged
      = c.onlyMatchIfChanged ∧
    (MacroConditionFile.Load t (MacroConditionFile.Save c d)).collapsed = c.collapsed ∧
    (MacroConditionFile.Load t d).lastHash = t.lastHash ∧
    (MacroConditionFile.Load t d).lastMod = t.lastMod := by
  refine ⟨fun _ _ => rfl, ?_, ?_, ?_, ?_, ?_, ?_, ?_, ?_, ?_, ?_⟩
  · simp [MacroConditionFile.Save, MacroCondition.Save, MacroSegment.Save, RegexConfig.Save,
      obs_data_set_string, obs_data_set_int, obs_data_set_bool, obs_data_set, obs_data_erase,
      obs_data_names, savedNames]
  · intro k hk
    simp only [savedNames, List.mem_cons, List.mem_singleton, not_or, List.not_mem_nil,
      or_false] at hk
    obtain ⟨h1, h2, h3, h4, h5, h6, h7⟩ := hk
    simp [MacroConditionFile.Save, MacroCondition.Save, MacroSegment.Save, RegexConfig.Save,
      obs_data_set_string, obs_data_set_int, obs_data_set_bool, obs_data_get_set,
      Ne.symm h1, Ne.symm h2, Ne.symm h3, Ne.symm h4, Ne.symm h5, Ne.symm h6, Ne.symm h7]
  · simp [MacroConditionFile.Load, MacroConditionFile.Save, obs_data_set_string,
      obs_data_set_int, obs_data_set_bool, obs_data_get_string, obs_data_get_set]
  · simp [MacroConditionFile.Load, MacroConditionFile.Save, obs_data_set_string,
      obs_data_set_int, obs_data_set_bool, obs_data_get_string, obs_data_get_set]
  · simp [MacroConditionFile.Load, MacroConditionFile.Save, obs_data_set_string,
      obs_data_set_int, obs_data_set_bool, obs_data_get_int, obs_data_get_set,
      fileType_ofInt_toInt]
  · simp [MacroConditionFile.Load, MacroConditionFile.Save, obs_data_set_string,
      obs_data_set_int, obs_data_set_bool, obs_data_get_bool, obs_data_get_set]
  · simp [MacroConditionFile.Load, MacroConditionFile.Save, obs_data_set_string,
      obs_data_set_int, obs_data_set_bool, obs_data_get_bool, obs_data_get_set]
  · rw [macroConditionFile_load_frame]
    simp [MacroConditionFile.Save, MacroCondition.Load,
      MacroSegment.Load, MacroCondition.Save, MacroSegment.Save, RegexConfig.Save,
      obs_data_set_string, obs_data_set_int, obs_data_set_bool, obs_data_get_bool,
      obs_data_get_set]
  · exact (macroConditionFile_load_cache t d).1
  · exact (macroConditionFile_load_cache t d).2

/-- Witness for C9: `sampleCond` saved into an older document and loaded into
`timedCond`: the foreign item `id` is still there, the text is restored and the
target's cache is kept. -/
theorem save_load_roundtrip_witness :
    obs_data_get (MacroConditionFile.Save sampleCond oldDoc) "id" = obs_data_get oldDoc "id" ∧
    (MacroConditionFile.Load timedCond (MacroConditionFile.Save sampleCond oldDoc)).text
      = "READY" ∧
    (MacroConditionFile.Load timedCond oldDoc).lastHash = 5 :=
  ⟨(save_load_roundtrip sampleCond timedCond oldDoc).2.2.1 "id" (by decide),
   (save_load_roundtrip sampleCond timedCond oldDoc).2.2.2.2.1,
   (save_load_roundtrip sampleCond timedCond oldDoc).2.2.2.2.2.2.2.2.2.1⟩

/-- C10 (counterexample): `PathChanged` emits `HeaderInfoChanged` between taking the
lock and releasing it, and `MatchTextChanged` and `RegexChanged` call `adjustSize` and
`updateGeometry` there: the lock is not released right after the assignment. -/
theorem pathChanged_emits_under_lock :
    (PathChanged sampleEdit "/tmp/other.txt").1
      = [Event.lock, Event.write Field.file, Event.emitHeaderInfoChanged "/tmp/other.txt",
         Event.unlock] ∧
    uiCallbackUnderLock false (PathChanged sampleEdit "/tmp/other.txt").1 = true ∧
    unlockRightAfterWrite (PathChanged sampleEdit "/tmp/other.txt").1 = false ∧
    uiCallbackUnderLock false (MatchTextChanged sampleEdit "DONE").1 = true ∧
    uiCallbackUnderLock false (RegexChanged sampleEdit { enable := true, options := 0 }).1
      = true := by
  decide

/-- C10 (amended): a setter called while loading or without a condition does nothing;
otherwise its events are: widget calls (only `FileTypeChanged` has some), the lock, the
assignment of the field, the user-interface calls of the rest of the body, the release.
The lock is taken before the assignment and released when the setter returns; it is
released right after the assignment, with no user-interface call under it, exactly in
`FileTypeChanged`, `CheckModificationDateChanged` and `OnlyMatchIfChangedChanged`. -/
theorem setter_lock_discipline (e : MacroConditionFileEdit) (call : SetterCall) :
    (e.loading = true ∨ e.entryData = none → call.run e = ([], e)) ∧
    (e.loading = false → e.entryData ≠ none →
      (∃ (ui : List Event) (f : Field) (rest : List Event),
        (call.run e).1 = ui ++ [Event.lock, Event.write f] ++ rest ++ [Event.unlock] ∧
        (∀ ev ∈ ui ++ rest, ev.isUiCallback = true) ∧
        (rest = [] ↔ call.continuesAfterWrite = false)) ∧
      uiCallbackUnderLock false (call.run e).1 = call.continuesAfterWrite) ∧
    writesUnderLock false (call.run e).1 = true ∧
    lockHeldAfter false (call.run e).1 = false ∧
    (call.continuesAfterWrite = false → unlockRightAfterWrite (call.run e).1 = true) := by
  obtain ⟨loading, entry⟩ := e
  cases entry with
  | none =>
    cases call <;>
    simp [SetterCall.run, FileTypeChanged, PathChanged, MatchTextChanged, RegexChanged,
      CheckModificationDateChanged, OnlyMatchIfChangedChanged, writesUnderLock, lockHeldAfter,
      unlockRightAfterWrite]
  | some c =>
    cases loading with
    | true =>
      cases call <;>
      simp [SetterCall.run, FileTypeChanged, PathChanged, MatchTextChanged, RegexChanged,
        CheckModificationDateChanged, OnlyMatchIfChangedChanged, writesUnderLock, lockHeldAfter,
        unlockRightAfterWrite]
    | false =>
      cases call with
      | fileTypeChanged index =>
        by_cases hl : FileType.ofInt index = FileType.LOCAL
        · refine ⟨by simp, fun _ _ => ⟨⟨[Event.setDisabled Widget.filePathButton false,
            Event.setDisabled Widget.checkModificationDate false], Field.fileType, [], ?_, ?_, ?_⟩,
            ?_⟩, ?_, ?_, ?_⟩ <;>
          simp [SetterCall.run, FileTypeChanged, hl, Event.isUiCallback,
            SetterCall.continuesAfterWrite, uiCallbackUnderLock, writesUnderLock, lockHeldAfter,
            unlockRightAfterWrite]
        · refine ⟨by simp, fun _ _ => ⟨⟨[Event.setDisabled Widget.filePathButton true,
            Event.setDisabled Widget.checkModificationDate true], Field.fileType, [], ?_, ?_, ?_⟩,
            ?_⟩, ?_, ?_, ?_⟩ <;>
          simp [SetterCall.run, FileTypeChanged, hl, Event.isUiCallback,
            SetterCall.continuesAfterWrite, uiCallbackUnderLock, writesUnderLock, lockHeldAfter,
            unlockRightAfterWrite]
      | pathChanged text =>
        refine ⟨by simp, fun _ _ => ⟨⟨[], Field.file,
          [Event.emitHeaderInfoChanged (cString text)], ?_, ?_, ?_⟩, ?_⟩, ?_, ?_, ?_⟩ <;>
        simp [SetterCall.run, PathChanged, Event.isUiCallback, MacroConditionFile.GetShortDesc,
          SetterCall.continuesAfterWrite, uiCallbackUnderLock, writesUnderLock, lockHeldAfter,
          unlockRightAfterWrite]
      | matchTextChanged plainText =>
        refine ⟨by simp, fun _ _ => ⟨⟨[], Field.text,
          [Event.adjustSize, Event.updateGeometry], ?_, ?_, ?_⟩, ?_⟩, ?_, ?_, ?_⟩ <;>
        simp [SetterCall.run, MatchTextChanged, Event.isUiCallback,
          SetterCall.continuesAfterWrite, uiCallbackUnderLock, writesUnderLock, lockHeldAfter,
          unlockRightAfterWrite]
      | regexChanged conf =>
        refine ⟨by simp, fun _ _ => ⟨⟨[], Field.regex,
          [Event.adjustSize, Event.updateGeometry], ?_, ?_, ?_⟩, ?_⟩, ?_, ?_, ?_⟩ <;>
        simp [SetterCall.run, RegexChanged, Event.isUiCallback,
          SetterCall.continuesAfterWrite, uiCallbackUnderLock, writesUnderLock, lockHeldAfter,
          unlockRightAfterWrite]
      | checkModificationDateChanged state =>
        refine ⟨by simp, fun _ _ => ⟨⟨[], Field.useTime, [], ?_, ?_, ?_⟩, ?_⟩, ?_, ?_, ?_⟩ <;>
        simp [SetterCall.run, CheckModificationDateChanged, Event.isUiCallback,
          SetterCall.continuesAfterWrite, uiCallbackUnderLock, writesUnderLock, lockHeldAfter,
          unlockRightAfterWrite]
      | onlyMatchIfChangedChanged state =>
        refine ⟨by simp, fun _ _ => ⟨⟨[], Field.onlyMatchIfChanged, [], ?_, ?_, ?_⟩, ?_⟩,
          ?_, ?_, ?_⟩ <;>
        simp [SetterCall.run, OnlyMatchIfChangedChanged, Event.isUiCallback,
          SetterCall.continuesAfterWrite, uiCallbackUnderLock, writesUnderLock, lockHeldAfter,
          unlockRightAfterWrite]

/-- Witness for C10: on `sampleEdit`, `OnlyMatchIfChangedChanged` holds the lock over
no user-interface call and releases it right after the assignment, `PathChanged` holds
it over one, and a loading editor is left alone. -/
theorem setter_lock_discipline_witness :
    uiCallbackUnderLock false (OnlyMatchIfChangedChanged sampleEdit 2).1 = false ∧
    unlockRightAfterWrite (OnlyMatchIfChangedChanged sampleEdit 2).1 = true ∧
    uiCallbackUnderLock false (PathChanged sampleEdit "/tmp/other.txt").1 = true ∧
    PathChanged { sampleEdit with loading := true } "/tmp/other.txt"
      = ([], { sampleEdit with loading := true }) :=
  ⟨((setter_lock_discipline sampleEdit (SetterCall.onlyMatchIfChangedChanged 2)).2.1 rfl
      (by decide)).2,
   (setter_lock_discipline sampleEdit (SetterCall.onlyMatchIfChangedChanged 2)).2.2.2.2 rfl,
   ((setter_lock_discipline sampleEdit (SetterCall.pathChanged "/tmp/other.txt")).2.1 rfl
      (by decide)).2,
   (setter_lock_discipline { sampleEdit with loading := true }
      (SetterCall.pathChanged "/tmp/other.txt")).1 (Or.inl rfl)⟩

/-- C11: only the previous hash is remembered. With `onlyMatchIfChanged` set, in
exact mode with match text `a`, and contents `a` and `b` of different hashes, the calls
on `a`, `b`, `a` return true on the third call (and, the stored hash being another one
at the start, on the first), although the hash of `a` was seen two calls earlier. -/
theorem matchFileContent_reappearance (L : Lib) (c : MacroConditionFile) (a b : String)
    (ho : c.onlyMatchIfChanged = true) (hre : c.regex.Enabled = false) (ht : c.text = a)
    (hab : L.strHash a ≠ L.strHash b) (hstart : c.lastHash ≠ L.strHash a) :
    (MatchFileContent L c a).1 = true ∧
    (MatchFileContent L (MatchFileContent L (MatchFileContent L c a).2 b).2 a).1 = true ∧
    (MatchFileContent L (MatchFileContent L (MatchFileContent L c a).2 b).2 a).2.lastHash
      = L.strHash a := by
  have hcmp : compareIgnoringLineEnding a a = true := by
    simp [compareIgnoringLineEnding]
  have hba : ¬ L.strHash b = L.strHash a := fun e => hab e.symm
  have hs : ¬ L.strHash a = c.lastHash := fun e => hstart e.symm
  subst ht
  refine ⟨?_, ?_, ?_⟩ <;>
  simp [MatchFileContent, matchConfigured, ho, hre, hab, hba, hs, hcmp]

/-- Witness for C11: `sampleCond` (stored hash 0, hash = length of the text) sees
`READY`, then `NOTREADY`, then `READY` again. -/
theorem matchFileContent_reappearance_witness :
    (MatchFileContent libNoRegex sampleCond "READY").1 = true ∧
    (MatchFileContent libNoRegex
      (MatchFileContent libNoRegex (MatchFileContent libNoRegex sampleCond "READY").2
        "NOTREADY").2 "READY").1 = true :=
  ⟨(matchFileContent_reappearance libNoRegex sampleCond "READY" "NOTREADY" rfl rfl rfl
      (by decide) (by decide)).1,
   (matchFileContent_reappearance libNoRegex sampleCond "READY" "NOTREADY" rfl rfl rfl
      (by decide) (by decide)).2.1⟩

/-- C12: with `onlyMatchIfChanged` unset `MatchFileContent` writes nothing, and its
result is the same for any two conditions that agree on the match text and the regex
configuration, so the same content gives the same result on the next call; in exact
mode with the text `READY` the content `READY` matches, twice in a row, and `NOTREADY`
does not. -/
theorem matchFileContent_stateless (L : Lib) (c c2 : MacroConditionFile) (d : String)
    (ho : c.onlyMatchIfChanged = false) (ho2 : c2.onlyMatchIfChanged = false)
    (ht : c2.text = c.text) (hr : c2.regex = c.regex) :
    (MatchFileContent L c d).2 = c ∧
    (MatchFileContent L c2 d).1 = (MatchFileContent L c d).1 ∧
    (MatchFileContent L (MatchFileContent L c d).2 d).1 = (MatchFileContent L c d).1 ∧
    (c.regex.Enabled = false → c.text = "READY" →
      (MatchFileContent L c "READY").1 = true ∧
      (MatchFileContent L (MatchFileContent L c "READY").2 "READY").1 = true ∧
      (MatchFileContent L c "NOTREADY").1 = false) := by
  have hstate : ∀ e : String, MatchFileContent L c e = (matchConfigured L c e, c) := by
    intro e
    simp [MatchFileContent, ho]
  have hstate2 : MatchFileContent L c2 d = (matchConfigured L c2 d, c2) := by
    simp [MatchFileContent, ho2]
  refine ⟨by rw [hstate], ?_, ?_, ?_⟩
  · rw [hstate, hstate2]
    simp [matchConfigured, ht, hr]
  · simp [hstate]
  · intro hre htext
    have h1 : matchConfigured L c "READY" = true := by
      simp only [matchConfigured, hre, htext, Bool.false_eq_true, if_false]
      decide
    have h2 : matchConfigured L c "NOTREADY" = false := by
      simp only [matchConfigured, hre, htext, Bool.false_eq_true, if_false]
      decide
    simp [hstate, h1, h2]

/-- Witness for C12: `readyCond` and a condition with the same text and regex
configuration but another path, file type and cache agree on `READY`; `readyCond`
matches `READY` on two calls in a row, is left as it was, and rejects `NOTREADY`. -/
theorem matchFileContent_stateless_witness :
    (MatchFileContent libNoRegex readyCond "READY").2 = readyCond ∧
    (MatchFileContent libNoRegex readyCondElsewhere "READY").1
      = (MatchFileContent libNoRegex readyCond "READY").1 ∧
    (MatchFileContent libNoRegex readyCond "READY").1 = true ∧
    (MatchFileContent libNoRegex (MatchFileContent libNoRegex readyCond "READY").2 "READY").1
      = true ∧
    (MatchFileContent libNoRegex readyCond "NOTREADY").1 = false :=
  ⟨(matchFileContent_stateless libNoRegex readyCond readyCondElsewhere "READY"
      rfl rfl rfl rfl).1,
   (matchFileContent_stateless libNoRegex readyCond readyCondElsewhere "READY"
      rfl rfl rfl rfl).2.1,
   (matchFileContent_stateless libNoRegex readyCond readyCondElsewhere "READY"
      rfl rfl rfl rfl).2.2.2 rfl rfl⟩

end SceneSwitcher
